import Mathlib

/-
Verification of the query-state reducer and its surrounding controller
from the repository's README (the `useReducer` search-box example).

The TypeScript source being embedded:

  type State =
    | { status: 'empty' }
    | { status: 'loading' }
    | { status: 'error'; error: string }
    | { status: 'success'; data: HNResponse };

  type HNResponse = { hits: { title: string; objectID: string; url: string }[] };

  type Action =
    | { type: 'request' }
    | { type: 'success'; results: HNResponse }
    | { type: 'failure'; error: string };

  function reducer(state: State, action: Action): State {
    switch (action.type) {
      case 'request': return { status: 'loading' };
      case 'success': return { status: 'success', data: action.results };
      case 'failure': return { status: 'error', error: action.error };
    }
  }

and the controller effect (one run per query change):

  let ignore = false;
  dispatch({ type: 'request' });
  axios(url).then(
    results => { if (!ignore) dispatch({ type: 'success', results: results.data }); },
    error => dispatch({ type: 'failure', error }),
  );
  return () => { ignore = true; };
-/

namespace HNSearch

/-- One search result item, from the `hits` element type of `HNResponse`. -/
structure Hit where
  title : String
  objectID : String
  url : String
deriving DecidableEq, Repr

/-- The response payload: `type HNResponse = \x7b hits: ... [] \x7d`. -/
structure HNResponse where
  hits : List Hit
deriving DecidableEq, Repr

/-- The `State` tagged union of the source. -/
inductive State where
  | empty : State
  | loading : State
  | error (error : String) : State
  | success (data : HNResponse) : State
deriving DecidableEq, Repr

/-- The `Action` tagged union of the source. -/
inductive Action where
  | request : Action
  | success (results : HNResponse) : Action
  | failure (error : String) : Action
deriving DecidableEq, Repr

/-- The `reducer` function of the source, case by case:
`request` yields `loading`, `success` carries `action.results` into
`status: 'success'`, `failure` carries `action.error` into `status: 'error'`. -/
def reducer (state : State) (action : Action) : State :=
  match action with
  | Action.request => State.loading
  | Action.success results => State.success results
  | Action.failure error => State.error error

/-- The controller state: `gen` counts effect runs (the latest run is the one
whose closure-captured `ignore` flag is still `false`; every earlier run has
been cleaned up, setting its flag to `true`), and `state` is the cell managed
by `useReducer`. -/
structure Controller where
  gen : Nat
  state : State
deriving DecidableEq, Repr

/-- The events the effect code reacts to: a query-text change (which cleans up
the previous effect run and starts a new one), and the settling of the fetch
started by run `g` (fulfilment with a response, or rejection with a message). -/
inductive Event where
  | queryChange : Event
  | resolve (g : Nat) (results : HNResponse) : Event
  | reject (g : Nat) (error : String) : Event
deriving DecidableEq, Repr

/-- One controller step, straight from the effect body:
on a query change the old run's `ignore` flag is set (modelled by bumping
`gen`) and the new run dispatches `request` at once; the fulfilment handler
dispatches `success` only when its run's flag is still unset (`g = gen`);
the rejection handler dispatches `failure` with no flag check at all. -/
def step (c : Controller) (e : Event) : Controller :=
  match e with
  | Event.queryChange =>
      { gen := c.gen + 1, state := reducer c.state Action.request }
  | Event.resolve g results =>
      if g = c.gen then { c with state := reducer c.state (Action.success results) }
      else c
  | Event.reject _ error =>
      { c with state := reducer c.state (Action.failure error) }

/-- The controller at mount: `useReducer(reducer, \x7b status: 'empty' \x7d)`
gives the state cell its initial value before any effect runs. -/
def init : Controller := { gen := 0, state := State.empty }

/-- Folding a list of events over the controller from the mount state. -/
def run (es : List Event) : Controller := es.foldl step init

/-- A dynamic JavaScript value as seen by the rejection path: the `onRejected`
parameter of `.then` is typed `any`, so the value may be a string or an
`Error`-like object (an axios rejection reason is an `AxiosError` object). -/
inductive JSValue where
  | str (s : String) : JSValue
  | errObject (message : String) : JSValue
deriving DecidableEq, Repr

/-- Whether a dynamic value is a string. -/
def JSValue.isString : JSValue → Bool
  | JSValue.str _ => true
  | JSValue.errObject _ => false

/-- The payload the rejection handler puts into the dispatched action:
`error => dispatch(\x7b type: 'failure', error \x7d)` passes the rejection
reason through unchanged. -/
def rejectedActionPayload (reason : JSValue) : JSValue := reason

end HNSearch

namespace HNSearch

/-- Claim C1: for every state `s`, `reducer s Requested = Loading`. -/
theorem reducer_request_loading (s : State) :
    reducer s Action.request = State.loading := rfl

/-- Claim C2: for every state `s` and every results payload `r`,
`reducer s (Succeeded r) = Success r`, the payload carried over unchanged. -/
theorem reducer_success_carries_results (s : State) (r : HNResponse) :
    reducer s (Action.success r) = State.success r := rfl

/-- Claim C3: for every state `s` and every message `m`,
`reducer s (Failed m) = Error m`, the message carried over unchanged. -/
theorem reducer_failure_carries_message (s : State) (m : String) :
    reducer s (Action.failure m) = State.error m := rfl

/-- Claim C4: `reducer` is total over its declared input domain: every state
paired with every action is matched by exactly one of the three arms of the
switch and yields a state, so no error or unmatched branch is reachable.
(Unrecognized action tags are not values of the declared `Action` type at
all; the exhaustive match over the closed union is the static
unreachable-case signal.) -/
theorem reducer_total (s : State) (a : Action) :
    (a = Action.request ∧ reducer s a = State.loading) ∨
    (∃ r, a = Action.success r ∧ reducer s a = State.success r) ∨
    (∃ m, a = Action.failure m ∧ reducer s a = State.error m) := by
  cases a with
  | request => exact Or.inl ⟨rfl, rfl⟩
  | success r => exact Or.inr (Or.inl ⟨r, rfl, rfl⟩)
  | failure m => exact Or.inr (Or.inr ⟨m, rfl, rfl⟩)

/-- Claim C5: `reducer` is pure and deterministic: two calls with identical
arguments yield equal results (the embedding is a mathematical function, so
there are no observable side effects to compare). -/
theorem reducer_deterministic (s₁ s₂ : State) (a₁ a₂ : Action)
    (hs : s₁ = s₂) (ha : a₁ = a₂) :
    reducer s₁ a₁ = reducer s₂ a₂ := by rw [hs, ha]

/-- Witness for C5 at concrete arguments. -/
theorem reducer_deterministic_witness :
    reducer State.empty Action.request = reducer State.empty Action.request :=
  reducer_deterministic State.empty State.empty Action.request Action.request
    rfl rfl

/-- Claim C6: transitions are unconditional on the current state: for all
states `s₁`, `s₂` and every action `a`, `reducer s₁ a = reducer s₂ a`. -/
theorem reducer_state_independent (s₁ s₂ : State) (a : Action) :
    reducer s₁ a = reducer s₂ a := by
  cases a <;> rfl

/-- Counterexample to claim C7 as stated: after the query changed twice
(runs 1 and 2) and run 2's fetch resolved, run 1's fetch is stale
(its generation 1 differs from the current generation 2), yet when it
rejects the controller still dispatches `Failed` and the state moves from
the newer query's `Success` to `Error`, so a stale settle does not always
leave the state unchanged. -/
theorem stale_reject_dispatches_cex :
    (1 ≠ (run [Event.queryChange, Event.queryChange,
        Event.resolve 2 ⟨[⟨"A", "1", "http://a"⟩]⟩]).gen) ∧
    step (run [Event.queryChange, Event.queryChange,
        Event.resolve 2 ⟨[⟨"A", "1", "http://a"⟩]⟩])
        (Event.reject 1 "network error") ≠
      run [Event.queryChange, Event.queryChange,
        Event.resolve 2 ⟨[⟨"A", "1", "http://a"⟩]⟩] := by
  decide

/-- Claim C7 as amended: when a fetch RESOLVES after the query has changed
again since it was issued (its generation no longer matches the current one),
the controller dispatches nothing and the state stays whatever the newer
query's flow produced; a stale REJECTION, however, still dispatches `Failed`,
because the rejection handler never consults the `ignore` flag. -/
theorem stale_resolve_suppressed :
    (∀ (c : Controller) (g : Nat) (r : HNResponse), g ≠ c.gen →
      step c (Event.resolve g r) = c) ∧
    (∀ (c : Controller) (g : Nat) (m : String),
      (step c (Event.reject g m)).state = State.error m) := by
  constructor
  · intro c g r h
    simp [step, h]
  · intro c g m
    rfl

/-- Witness for the amended C7 at concrete inputs. -/
theorem stale_resolve_suppressed_witness :
    step { gen := 2, state := State.loading } (Event.resolve 1 ⟨[]⟩) =
      { gen := 2, state := State.loading } ∧
    (step { gen := 2, state := State.loading }
        (Event.reject 1 "boom")).state = State.error "boom" :=
  ⟨stale_resolve_suppressed.1 { gen := 2, state := State.loading } 1 ⟨[]⟩
      (by decide),
    stale_resolve_suppressed.2 { gen := 2, state := State.loading } 1 "boom"⟩

/-- Claim C8: at mount the state cell is created as `Empty`, and every
controller step either leaves the state untouched or replaces it with
`reducer` applied to the old state and some dispatched action: no other
writer mutates the state cell. -/
theorem state_only_via_reducer :
    init.state = State.empty ∧
    ∀ (c : Controller) (e : Event),
      (step c e).state = c.state ∨
      ∃ a, (step c e).state = reducer c.state a := by
  refine ⟨rfl, ?_⟩
  intro c e
  cases e with
  | queryChange => exact Or.inr ⟨Action.request, rfl⟩
  | resolve g results =>
      by_cases h : g = c.gen
      · exact Or.inr ⟨Action.success results, by simp [step, h]⟩
      · exact Or.inl (by simp [step, h])
  | reject g error => exact Or.inr ⟨Action.failure error, rfl⟩

/-- Claim C9 at its failing input: the rejection handler forwards the
rejection reason unchanged into the `failure` action, so when axios rejects
with an `AxiosError` object (as it does on a network failure) the payload
reaching the `Error` state is that object and not a string, contradicting
the declared `error: string` field. -/
theorem rejected_payload_not_string :
    (rejectedActionPayload (JSValue.errObject "Network Error")).isString
      = false := rfl

/-- Claim C10: `reducer` never produces the `Empty` state: every arm of the
switch yields `loading`, `success` or `error`, so `Empty` occurs only as the
initial value and is never re-entered once an action has been dispatched. -/
theorem reducer_never_empty (s : State) (a : Action) :
    reducer s a ≠ State.empty := by
  cases a <;> simp [reducer]

end HNSearch
